import Mathlib

/-!
Verification development for the go-api-gateway authentication core.

The Go sources are shallowly embedded as pure Lean functions:

* internal/auth/auth.go       : token issuance (generateToken, NewHandler) and
                                verification (VerifyToken), including the
                                claims validation performed by the go-jose v4
                                library (Claims.Validate with its one-minute
                                DefaultLeeway).
* internal/middleware/auth.go : the Auth middleware (authenticateJWT,
                                authenticateAPIKey, the bypass check and the
                                uniform 401 rejection).
* store package               : AuthenticateUser and LookupAPIKey over an
                                explicit in-memory table state; the SQL rows
                                become Lean lists, a non-ErrNoRows database
                                error is modelled by the available flag being
                                false (the StoreUnavailable dependency-fault
                                class of the spec).

Modelling conventions:

* Time is an integer count of seconds (JWT NumericDate granularity); the Go
  code's time.Now() calls inside one operation are modelled by a single now
  parameter.
* HMAC-SHA256 signing (jose.HS256) is modelled as an ideal MAC: the tag is
  the signed payload paired with the key, so a tag checks out exactly when
  it was produced over the same payload with the same secret.
* uuid.UUID.String / uuid.Parse form an injective codec from UUIDs into a
  subset of strings; SubjectStr partitions the string space of the JWT sub
  claim into canonical UUID renderings (carrying the UUID) and everything
  uuid.Parse rejects.
* JWT compact serialization is an injective codec from signed tokens into
  strings; TokenWire partitions the token-string space into structurally
  well-formed serializations (carrying the token and its protected-header
  alg value) and malformed strings. The middleware receives a decoder
  String -> TokenWire as a parameter standing for that structural layer;
  go-jose v4's jwt.ParseSigned additionally takes a mandatory
  signature-algorithm allowlist and rejects any token whose alg is not in
  it — auth.go passes nil, modelled as the empty list inside VerifyToken,
  under which every token is rejected at the parse step.
* Go string helpers (strings.HasPrefix, strings.ToLower, strings.TrimSpace,
  byte slicing s[7:]) are re-implemented structurally over String.data so
  that the kernel can evaluate them; after the case-insensitive check for
  the 7-byte ASCII scheme "bearer " the byte index 7 coincides with the
  character index, and lowering is the per-character fold Go applies to the
  characters of that scheme.
* bcrypt.CompareHashAndPassword is an abstract boolean parameter bcryptOK
  (true means the comparison returned nil).
-/

namespace Gateway

/-- Decidable equality of Except results, so that concrete runs of the
embedded operations can be checked by evaluation. -/
def exceptEqDec {ε α : Type} [DecidableEq ε] [DecidableEq α] :
    (a b : Except ε α) → Decidable (a = b)
  | .error e1, .error e2 =>
    if h : e1 = e2 then isTrue (by rw [h])
    else isFalse (fun hc => h (Except.error.inj hc))
  | .error _, .ok _ => isFalse (fun hc => Except.noConfusion hc)
  | .ok _, .error _ => isFalse (fun hc => Except.noConfusion hc)
  | .ok a1, .ok a2 =>
    if h : a1 = a2 then isTrue (by rw [h])
    else isFalse (fun hc => h (Except.ok.inj hc))

instance {ε α : Type} [DecidableEq ε] [DecidableEq α] : DecidableEq (Except ε α) :=
  exceptEqDec

/-- Per-character lower-casing as applied by strings.ToLower to ASCII. -/
def charLower (c : Char) : Char :=
  if 'A' ≤ c && c ≤ 'Z' then Char.ofNat (c.toNat + 32) else c

/-- strings.ToLower, character-wise. -/
def goToLower (s : String) : String := String.mk (s.data.map charLower)

/-- strings.HasPrefix. -/
def goStartsWith (s pre : String) : Bool := s.data.take pre.data.length == pre.data

/-- The white-space class trimmed by strings.TrimSpace (ASCII part). -/
def isGoSpace (c : Char) : Bool :=
  c == ' ' || c == '\t' || c == '\n' || c == '\x0b' || c == '\x0c' || c == '\r'

/-- strings.TrimSpace. -/
def goTrimSpace (s : String) : String :=
  String.mk (((s.data.dropWhile isGoSpace).reverse.dropWhile isGoSpace).reverse)

/-- The Go slice s[n:] (byte index; used only after an ASCII check). -/
def goDrop (s : String) (n : Nat) : String := String.mk (s.data.drop n)

/-- The string space of the JWT sub claim, partitioned into canonical UUID
renderings (uuid.UUID.String output, carrying the UUID, here an abstract
Nat) and strings uuid.Parse rejects. -/
inductive SubjectStr where
  | uuid (u : Nat) : SubjectStr
  | invalid (raw : String) : SubjectStr
deriving DecidableEq, Repr

/-- uuid.UUID.String: the canonical rendering of a UUID. -/
def uuidString (u : Nat) : SubjectStr := .uuid u

/-- uuid.Parse: succeeds exactly on canonical renderings. -/
def uuidParse : SubjectStr → Option Nat
  | .uuid u => some u
  | .invalid _ => none

/-- store.Identity: the authenticated user (store package). -/
structure StoreIdentity where
  userID : Nat
  email : String
deriving DecidableEq, Repr

/-- One row of the users table (id, email, password_hash). -/
structure UserRow where
  id : Nat
  email : String
  passwordHash : String
deriving DecidableEq, Repr

/-- One row of the api_keys table (user_id, key, revoked); id, label and
created_at play no role in the queries. -/
structure APIKeyRow where
  userID : Nat
  key : String
  revoked : Bool
deriving DecidableEq, Repr

/-- Errors surfaced by the store: the two sentinel errors of the store
package plus the StoreUnavailable class (any database error other than
sql.ErrNoRows, which the Go code propagates unchanged). -/
inductive StoreError where
  | invalidCredentials
  | apiKeyNotFound
  | storeUnavailable
deriving DecidableEq, Repr

/-- The persisted state behind a Store: the two tables (row order is the
result order of the un-ORDERed SQL queries) and an availability flag; when
available is false every query fails with the StoreUnavailable class. -/
structure StoreState where
  users : List UserRow
  apiKeys : List APIKeyRow
  available : Bool
deriving DecidableEq, Repr

/-- Store.AuthenticateUser: select the first row matching the email exactly
(sql.ErrNoRows becomes ErrInvalidCredentials), then compare the password
against the stored hash with bcrypt (modelled by bcryptOK); a mismatch is
the same ErrInvalidCredentials. -/
def AuthenticateUser (bcryptOK : String → String → Bool) (s : StoreState)
    (email password : String) : Except StoreError StoreIdentity :=
  if s.available = false then .error .storeUnavailable
  else
    match s.users.find? (fun u => u.email == email) with
    | none => .error .invalidCredentials
    | some u =>
      if bcryptOK u.passwordHash password then .ok ⟨u.id, u.email⟩
      else .error .invalidCredentials

/-- The rows of the SQL join in LookupAPIKey: api_keys filtered to the exact
key string and revoked = false, inner-joined to users on user_id. -/
def apiKeyJoinRows (s : StoreState) (key : String) : List StoreIdentity :=
  (s.apiKeys.filter (fun r => r.key == key && r.revoked == false)).filterMap
    (fun r => (s.users.find? (fun u => u.id == r.userID)).map
      (fun u => ⟨r.userID, u.email⟩))

/-- Store.LookupAPIKey: LIMIT 1 over the join (an empty result,
sql.ErrNoRows, becomes ErrAPIKeyNotFound; a revoked or absent key and a key
whose owner row is missing are indistinguishable). -/
def LookupAPIKey (s : StoreState) (key : String) : Except StoreError StoreIdentity :=
  if s.available = false then .error .storeUnavailable
  else
    match (apiKeyJoinRows s key).head? with
    | none => .error .apiKeyNotFound
    | some identity => .ok identity

/-- The claims payload of a token: sub, email, iss, iat, nbf, exp
(jwt.Claims plus the email custom claim). -/
structure TokenClaims where
  sub : SubjectStr
  email : String
  iss : String
  iat : Int
  nbf : Int
  exp : Int
deriving DecidableEq, Repr

/-- An ideal HS256 MAC tag: determined by the signed payload and the key. -/
structure MACTag where
  payload : TokenClaims
  key : String
deriving DecidableEq, Repr

/-- Signing a claims payload with a secret. -/
def macSign (c : TokenClaims) (secret : String) : MACTag := ⟨c, secret⟩

/-- A structurally well-formed signed token: the protected header's alg
value, the claims, and the signature. -/
structure SignedToken where
  alg : String
  claims : TokenClaims
  sig : MACTag
deriving DecidableEq, Repr

/-- The token-string space at the structural level: either a well-formed
compact serialization (carrying the token it decodes to) or a malformed
string. -/
inductive TokenWire where
  | malformed (raw : String)
  | parsed (t : SignedToken)
deriving DecidableEq, Repr

/-- The distinct failure modes of VerifyToken, in the order the Go code can
produce them: structural jwt.ParseSigned failure, rejection of the header
alg by the mandatory go-jose v4 signature-algorithm allowlist, signature
mismatch in parsed.Claims, the three temporal errors of go-jose
Claims.Validate, and a sub claim uuid.Parse rejects. -/
inductive VerifyError where
  | parseError
  | algNotAllowed
  | signatureError
  | errNotValidYet
  | errExpired
  | errIssuedInTheFuture
  | subjectParseError
deriving DecidableEq, Repr

/-- go-jose jwt.DefaultLeeway: one minute, in seconds. -/
def DefaultLeeway : Int := 60

/-- go-jose Claims.Validate(Expected{Time: now}), which is
ValidateWithLeeway with DefaultLeeway; only the temporal checks fire
because the other Expected fields are zero. The checks, in source order:
now+leeway before nbf, now-leeway after exp, now+leeway before iat. -/
def validateClaims (c : TokenClaims) (now : Int) : Except VerifyError Unit :=
  if now + DefaultLeeway < c.nbf then .error .errNotValidYet
  else if now - DefaultLeeway > c.exp then .error .errExpired
  else if now + DefaultLeeway < c.iat then .error .errIssuedInTheFuture
  else .ok ()

/-- auth.Identity: authenticated user details plus the method label. -/
structure AuthIdentity where
  userID : Nat
  email : String
  method : String
deriving DecidableEq, Repr

/-- go-jose v4 jwt.ParseSigned: structural parse of the compact
serialization plus the mandatory signature-algorithm allowlist check — a
token whose protected-header alg is not contained in the supplied list is
rejected. -/
def jwtParseSigned (tok : TokenWire) (allowed : List String) :
    Except VerifyError SignedToken :=
  match tok with
  | .malformed _ => .error .parseError
  | .parsed t =>
    if allowed.contains t.alg then .ok t else .error .algNotAllowed

/-- The remainder of auth.VerifyToken after jwt.ParseSigned: check the
signature against the secret (parsed.Claims), validate the temporal
claims, parse the sub claim as a UUID, and return the identity labelled
with method "jwt". -/
def verifyParsedToken (t : SignedToken) (secret : String) (now : Int) :
    Except VerifyError AuthIdentity :=
  if t.sig = macSign t.claims secret then
    match validateClaims t.claims now with
    | .error e => .error e
    | .ok _ =>
      match uuidParse t.claims.sub with
      | none => .error .subjectParseError
      | some uid => .ok ⟨uid, t.claims.email, "jwt"⟩
  else .error .signatureError

/-- auth.VerifyToken: jwt.ParseSigned(token, nil) — auth.go line 121
passes nil as the go-jose v4 algorithm allowlist, modelled by the empty
list, so the parse step rejects every token — followed by the signature,
temporal and subject checks. -/
def VerifyToken (tok : TokenWire) (secret : String) (now : Int) :
    Except VerifyError AuthIdentity :=
  match jwtParseSigned tok [] with
  | .error e => .error e
  | .ok t => verifyParsedToken t secret now

/-- auth.Handler: the login handler's token-issuance configuration. -/
structure Handler where
  secret : String
  tokenTTL : Int
  issuer : String
deriving DecidableEq, Repr

/-- auth.NewHandler: fixes the issuer to "api-gateway". -/
def NewHandler (secret : String) (ttl : Int) : Handler := ⟨secret, ttl, "api-gateway"⟩

/-- auth.Handler.generateToken: claims are subject = identity.UserID
rendered as a string, email, the handler's issuer, Expiry = now + ttl,
IssuedAt = NotBefore = now; the token is signed with jose.HS256 (header
alg "HS256") under the handler's secret and returned together with the
expiry timestamp. -/
def generateToken (h : Handler) (identity : StoreIdentity) (now : Int) :
    SignedToken × Int :=
  let e := now + h.tokenTTL
  let cl : TokenClaims :=
    { sub := uuidString identity.userID, email := identity.email,
      iss := h.issuer, iat := now, nbf := now, exp := e }
  ({ alg := "HS256", claims := cl, sig := macSign cl h.secret }, e)

/-- An HTTP request as the middleware reads it: URL path and header set.
Header names are taken in Go's canonical form; Header.Get of an absent
header is the empty string. -/
structure Request where
  path : String
  headers : List (String × String)
deriving DecidableEq, Repr

/-- http.Header.Get. -/
def headerGet (r : Request) (name : String) : String :=
  match r.headers.find? (fun p => p.fst == name) with
  | some p => p.snd
  | none => ""

/-- middleware.AuthConfig: store, JWT secret, API-key header name and the
bypass-path set (the Go map becomes a list queried by membership). -/
structure AuthConfig where
  store : StoreState
  jwtSecret : String
  apiKeyHeader : String
  skipPaths : List String
deriving DecidableEq, Repr

/-- middleware.authenticateJWT: require a non-empty Authorization header
whose lower-cased form starts with "bearer ", take the byte-slice after the
scheme, trim it, require it non-empty, and verify it; any verification
error yields no identity. The decodeToken parameter is jwt.ParseSigned on
the raw token text. -/
def authenticateJWT (decodeToken : String → TokenWire) (r : Request)
    (secret : String) (now : Int) : Option AuthIdentity :=
  let authHeader := headerGet r "Authorization"
  if authHeader = "" then none
  else if !(goStartsWith (goToLower authHeader) "bearer ") then none
  else
    let token := goTrimSpace (goDrop authHeader 7)
    if token = "" then none
    else
      match VerifyToken (decodeToken token) secret now with
      | .error _ => none
      | .ok identity => some identity

/-- auth.IdentityFromStore. -/
def IdentityFromStore (identity : StoreIdentity) (method : String) : AuthIdentity :=
  ⟨identity.userID, identity.email, method⟩

/-- The effective API-key header name: the configured one, defaulting to
X-API-Key when empty. -/
def apiKeyHeaderName (cfg : AuthConfig) : String :=
  if cfg.apiKeyHeader = "" then "X-API-Key" else cfg.apiKeyHeader

/-- middleware.authenticateAPIKey: read the configured header (default
X-API-Key); an empty value or any lookup error (not-found, revoked, or a
store outage alike) yields no identity; otherwise label the store identity
with method "api_key". -/
def authenticateAPIKey (cfg : AuthConfig) (r : Request) : Option AuthIdentity :=
  let value := headerGet r (apiKeyHeaderName cfg)
  if value = "" then none
  else
    match LookupAPIKey cfg.store value with
    | .error _ => none
    | .ok identity => some (IdentityFromStore identity "api_key")

/-- What the middleware does with a request: hand it to the next handler
(with the identity attached to the context when one was authenticated, none
on a bypass), or write an HTTP error response itself. -/
inductive AuthOutcome where
  | forward (identity : Option AuthIdentity)
  | respond (status : Nat) (body : String)
deriving DecidableEq, Repr

/-- middleware.Auth: bypass for configured skip paths and any path starting
with /healthz; otherwise JWT first, then API key, then the uniform
http.Error(w, "unauthorized", 401). -/
def Auth (decodeToken : String → TokenWire) (cfg : AuthConfig) (now : Int)
    (r : Request) : AuthOutcome :=
  if cfg.skipPaths.contains r.path || goStartsWith r.path "/healthz" then
    .forward none
  else
    match authenticateJWT decodeToken r cfg.jwtSecret now with
    | some identity => .forward (some identity)
    | none =>
      match authenticateAPIKey cfg r with
      | some identity => .forward (some identity)
      | none => .respond 401 "unauthorized"

/-- Revocation tooling (external to the core, spec section 3): set the
revoked flag on every api_keys row holding the given key string. -/
def revokeKey (s : StoreState) (key : String) : StoreState :=
  { s with apiKeys :=
      s.apiKeys.map fun r => if r.key == key then { r with revoked := true } else r }

/-- Whether a verification result is a failure (a non-nil error in Go). -/
def verifyFailed (x : Except VerifyError AuthIdentity) : Bool :=
  match x with
  | .error _ => true
  | .ok _ => false

/-- Helper: VerifyToken rejects every token: the empty algorithm allowlist
(auth.go passes nil to jwt.ParseSigned) contains no alg value, so the
parse step fails before any signature or temporal check runs. -/
theorem verifyToken_rejects_all (tok : TokenWire) (secret : String) (now : Int) :
    verifyFailed (VerifyToken tok secret now) = true := by
  cases tok with
  | malformed raw => rfl
  | parsed t => rfl

/-- Helper: the post-parse pipeline accepts a correctly signed token whose
temporal claims pass the leeway checks and whose subject is a canonical
UUID, returning the embedded subject and email labelled "jwt". -/
theorem verifyParsed_ok_of_valid (secret : String) (now : Int) (t : SignedToken)
    (uid : Nat)
    (hsig : t.sig = macSign t.claims secret)
    (hnbf : t.claims.nbf ≤ now + DefaultLeeway)
    (hexp : now ≤ t.claims.exp + DefaultLeeway)
    (hiat : t.claims.iat ≤ now + DefaultLeeway)
    (hparse : uuidParse t.claims.sub = some uid) :
    verifyParsedToken t secret now = .ok ⟨uid, t.claims.email, "jwt"⟩ := by
  have hL : DefaultLeeway = 60 := rfl
  rw [hL] at hnbf hexp hiat
  have hv : validateClaims t.claims now = .ok () := by
    unfold validateClaims DefaultLeeway
    rw [if_neg (by omega), if_neg (by omega), if_neg (by omega)]
  simp [verifyParsedToken, hsig, hv, hparse]

/-- Helper: a freshly issued token with a non-negative ttl passes every
check of the post-parse pipeline at the issuance instant, so the sole
reason the program's VerifyToken rejects it is the empty allowlist. -/
theorem generate_then_validate (secret : String) (ttl : Int)
    (identity : StoreIdentity) (now : Int) (h : 0 ≤ ttl) :
    verifyParsedToken (generateToken (NewHandler secret ttl) identity now).1
        secret now = .ok ⟨identity.userID, identity.email, "jwt"⟩ := by
  exact verifyParsed_ok_of_valid secret now _ identity.userID rfl
    (by simp only [generateToken, NewHandler, DefaultLeeway]; omega)
    (by simp only [generateToken, NewHandler, DefaultLeeway]; omega)
    (by simp only [generateToken, NewHandler, DefaultLeeway]; omega)
    rfl

/-- C5: every request whose URL path starts with "/healthz" (including
paths such as /healthz/live or /healthzfoo) is forwarded to the next
handler with no credential check and no identity attached, whatever the
configured bypass-path set contains. -/
theorem healthz_path_bypasses_auth (decodeToken : String → TokenWire)
    (cfg : AuthConfig) (now : Int) (r : Request)
    (h : goStartsWith r.path "/healthz" = true) :
    Auth decodeToken cfg now r = .forward none := by
  simp [Auth, h]

theorem healthz_path_bypasses_auth_witness :
    goStartsWith "/healthzfoo" "/healthz" = true ∧
    (["/auth/login"] : List String).contains "/healthzfoo" = false ∧
    Auth (fun s => .malformed s)
        ⟨⟨[], [], true⟩, "secret", "", ["/auth/login"]⟩ 0
        ⟨"/healthzfoo", []⟩ = .forward none :=
  ⟨by decide, by decide, healthz_path_bypasses_auth _ _ _ _ (by decide)⟩

/-- C6: on a protected path, when neither the bearer mechanism nor the
API-key mechanism yields an identity (headers absent, malformed or invalid
in any combination), the gate writes the one uniform rejection, status 401
with body unauthorized, and never hands the request to the next handler. -/
theorem unauthenticated_request_uniform_401 (decodeToken : String → TokenWire)
    (cfg : AuthConfig) (now : Int) (r : Request)
    (hskip : (cfg.skipPaths.contains r.path || goStartsWith r.path "/healthz") = false)
    (hjwt : authenticateJWT decodeToken r cfg.jwtSecret now = none)
    (hkey : authenticateAPIKey cfg r = none) :
    Auth decodeToken cfg now r = .respond 401 "unauthorized" := by
  simp [Auth, hjwt, hkey]
  simpa using hskip

theorem unauthenticated_request_uniform_401_witness :
    ((["/auth/login"] : List String).contains "/a/hello" ||
        goStartsWith "/a/hello" "/healthz") = false ∧
    authenticateJWT (fun s => .malformed s)
        ⟨"/a/hello", [("X-API-Key", "bogus")]⟩ "secret" 0 = none ∧
    authenticateAPIKey ⟨⟨[], [], true⟩, "secret", "", ["/auth/login"]⟩
        ⟨"/a/hello", [("X-API-Key", "bogus")]⟩ = none ∧
    Auth (fun s => .malformed s) ⟨⟨[], [], true⟩, "secret", "", ["/auth/login"]⟩ 0
        ⟨"/a/hello", [("X-API-Key", "bogus")]⟩ = .respond 401 "unauthorized" :=
  ⟨by decide, by decide, by decide,
    unauthenticated_request_uniform_401 _ _ _ _ (by decide) (by decide) (by decide)⟩

/-- C4: the claimed bearer-precedence scenario is dead code in the
program. At the concrete failing input — a protected request carrying
Authorization: Bearer tok1, where tok1 decodes to exactly the token the
service itself issued for user 7 with the same secret at the same instant
— the bearer mechanism yields nothing (every token is rejected by the nil
algorithm allowlist inside VerifyToken), so the gate, contrary to the
claimed precedence, rejects the request with 401 when the accompanying
API-key header is invalid, and authenticates it via the api_key path when
the API-key header is valid. -/
theorem bearer_precedence_dead_code :
    authenticateJWT
      (fun s => if s == "tok1" then
          .parsed (generateToken (NewHandler "secret" 3600) ⟨7, "demo@puvaan.dev"⟩ 1000).1
        else .malformed s)
      ⟨"/a/hello", [("Authorization", "Bearer tok1"), ("X-API-Key", "bogus")]⟩
      "secret" 1000 = none ∧
    Auth
      (fun s => if s == "tok1" then
          .parsed (generateToken (NewHandler "secret" 3600) ⟨7, "demo@puvaan.dev"⟩ 1000).1
        else .malformed s)
      ⟨⟨[⟨7, "demo@puvaan.dev", "hash"⟩], [⟨7, "demo-key-123", false⟩], true⟩,
        "secret", "", ["/auth/login"]⟩ 1000
      ⟨"/a/hello", [("Authorization", "Bearer tok1"), ("X-API-Key", "bogus")]⟩
      = .respond 401 "unauthorized" ∧
    Auth
      (fun s => if s == "tok1" then
          .parsed (generateToken (NewHandler "secret" 3600) ⟨7, "demo@puvaan.dev"⟩ 1000).1
        else .malformed s)
      ⟨⟨[⟨7, "demo@puvaan.dev", "hash"⟩], [⟨7, "demo-key-123", false⟩], true⟩,
        "secret", "", ["/auth/login"]⟩ 1000
      ⟨"/a/hello", [("Authorization", "Bearer tok1"), ("X-API-Key", "demo-key-123")]⟩
      = .forward (some ⟨7, "demo@puvaan.dev", "api_key"⟩) := by
  decide

/-- C1 counterexample: the Credential Store's API-key lookup fails with the
StoreUnavailable class (store not available), yet the gate responds with
the uniform 401 unauthenticated rejection, not a 5xx. -/
theorem store_outage_observed_as_401 :
    LookupAPIKey ⟨[], [], false⟩ "demo-key-123" = .error .storeUnavailable ∧
    Auth (fun s => .malformed s)
        ⟨⟨[], [], false⟩, "secret", "", ["/auth/login"]⟩ 0
        ⟨"/a/hello", [("X-API-Key", "demo-key-123")]⟩
        = .respond 401 "unauthorized" := by
  decide

/-- C1 (amended): when, on a protected request, the API-key lookup fails
with the StoreUnavailable class, the gate responds with the same uniform
401 rejection as for any credential failure; indeed every response the
gate writes itself has status 401 and body unauthorized, so it never
surfaces a server-side 5xx fault. -/
theorem store_outage_converted_to_401 (decodeToken : String → TokenWire)
    (cfg : AuthConfig) (now : Int) :
    (∀ (r : Request),
      (cfg.skipPaths.contains r.path || goStartsWith r.path "/healthz") = false →
      authenticateJWT decodeToken r cfg.jwtSecret now = none →
      headerGet r (apiKeyHeaderName cfg) ≠ "" →
      LookupAPIKey cfg.store (headerGet r (apiKeyHeaderName cfg))
        = .error .storeUnavailable →
      Auth decodeToken cfg now r = .respond 401 "unauthorized") ∧
    (∀ (r : Request) (st : Nat) (b : String),
      Auth decodeToken cfg now r = .respond st b → st = 401 ∧ b = "unauthorized") := by
  constructor
  · intro r hskip hj hval hlook
    have hk : authenticateAPIKey cfg r = none := by
      simp [authenticateAPIKey, hval, hlook]
    simp [Auth, hj, hk]
    simpa using hskip
  · intro r st b h
    unfold Auth at h
    split at h
    · cases h
    · split at h
      · cases h
      · split at h
        · cases h
        · injection h with h1 h2
          exact ⟨h1.symm, h2.symm⟩

theorem store_outage_converted_to_401_witness :
    ((["/auth/login"] : List String).contains "/a/hello" ||
        goStartsWith "/a/hello" "/healthz") = false ∧
    LookupAPIKey ⟨[⟨7, "demo@puvaan.dev", "hash"⟩], [⟨7, "demo-key-123", false⟩], false⟩
        "demo-key-123" = .error .storeUnavailable ∧
    Auth (fun s => .malformed s)
        ⟨⟨[⟨7, "demo@puvaan.dev", "hash"⟩], [⟨7, "demo-key-123", false⟩], false⟩,
          "secret", "", ["/auth/login"]⟩ 0
        ⟨"/a/hello", [("X-API-Key", "demo-key-123")]⟩
        = .respond 401 "unauthorized" ∧
    (401 = 401 ∧ "unauthorized" = "unauthorized") :=
  ⟨by decide, by decide,
    (store_outage_converted_to_401 _ _ _).1 _
      (by decide) (by decide) (by decide) (by decide),
    (store_outage_converted_to_401 _ _ _).2
      ⟨"/a/hello", [("X-API-Key", "demo-key-123")]⟩ 401 "unauthorized"
      ((store_outage_converted_to_401 (fun s => .malformed s)
          ⟨⟨[⟨7, "demo@puvaan.dev", "hash"⟩], [⟨7, "demo-key-123", false⟩], false⟩,
            "secret", "", ["/auth/login"]⟩ 0).1 _
        (by decide) (by decide) (by decide) (by decide))⟩

/-- C9: for every identity and configured ttl, issuance at time now
produces a token signed with the handler secret whose embedded claims are
exactly subject = the rendered user id, email, issuer = the fixed service
name api-gateway, issued-at = now, not-before = now, expiry = now + ttl;
the expiry returned alongside equals the embedded expiry claim; and for a
positive ttl the embedded expiry is strictly after the embedded issued-at.
The ttl configuration wiring is not part of the embedded core; the spec
fixes it as a positive lifetime (for example one hour), which is the
hypothesis of the last conjunct. -/
theorem generateToken_claims_shape (secret : String) (ttl : Int)
    (identity : StoreIdentity) (now : Int) :
    (generateToken (NewHandler secret ttl) identity now).1.claims =
      { sub := uuidString identity.userID, email := identity.email,
        iss := "api-gateway", iat := now, nbf := now, exp := now + ttl } ∧
    (generateToken (NewHandler secret ttl) identity now).1.sig =
      macSign (generateToken (NewHandler secret ttl) identity now).1.claims secret ∧
    (generateToken (NewHandler secret ttl) identity now).2 =
      (generateToken (NewHandler secret ttl) identity now).1.claims.exp ∧
    (0 < ttl →
      (generateToken (NewHandler secret ttl) identity now).1.claims.iat <
        (generateToken (NewHandler secret ttl) identity now).1.claims.exp) := by
  refine ⟨rfl, rfl, rfl, fun h => ?_⟩
  simp only [generateToken, NewHandler]
  omega

theorem generateToken_claims_shape_witness :
    (generateToken (NewHandler "secret" 3600) ⟨7, "demo@puvaan.dev"⟩ 1000).1.claims =
      { sub := uuidString 7, email := "demo@puvaan.dev",
        iss := "api-gateway", iat := 1000, nbf := 1000, exp := 1000 + 3600 } ∧
    (0 : Int) < 3600 ∧
    (generateToken (NewHandler "secret" 3600) ⟨7, "demo@puvaan.dev"⟩ 1000).1.claims.iat <
      (generateToken (NewHandler "secret" 3600) ⟨7, "demo@puvaan.dev"⟩ 1000).1.claims.exp :=
  ⟨(generateToken_claims_shape "secret" 3600 ⟨7, "demo@puvaan.dev"⟩ 1000).1,
    by decide,
    (generateToken_claims_shape "secret" 3600 ⟨7, "demo@puvaan.dev"⟩ 1000).2.2.2 (by decide)⟩

/-- C10: round-trip failure. For every identity, ttl, secret and instant,
the token the service issues is rejected when immediately verified with
the same secret: VerifyToken fails at the parse step because auth.go
passes a nil signature-algorithm allowlist to go-jose v4's
jwt.ParseSigned, which then accepts no algorithm at all, HS256 included.
The second conjunct isolates the slip: for a non-negative ttl the very
same token passes every later check (signature, temporal bounds, subject),
so the allowlist is the sole reason verification fails. -/
theorem issued_tokens_never_verify (secret : String) (ttl : Int)
    (identity : StoreIdentity) (now : Int) :
    VerifyToken (.parsed (generateToken (NewHandler secret ttl) identity now).1)
        secret now = .error .algNotAllowed ∧
    (0 ≤ ttl →
      verifyParsedToken (generateToken (NewHandler secret ttl) identity now).1
          secret now = .ok ⟨identity.userID, identity.email, "jwt"⟩) :=
  ⟨rfl, fun h => generate_then_validate secret ttl identity now h⟩

theorem issued_tokens_never_verify_witness :
    VerifyToken
        (.parsed (generateToken (NewHandler "secret" 3600) ⟨7, "demo@puvaan.dev"⟩ 1000).1)
        "secret" 1000 = .error .algNotAllowed ∧
    (0 : Int) ≤ 3600 ∧
    verifyParsedToken (generateToken (NewHandler "secret" 3600) ⟨7, "demo@puvaan.dev"⟩ 1000).1
        "secret" 1000 = .ok ⟨7, "demo@puvaan.dev", "jwt"⟩ :=
  ⟨(issued_tokens_never_verify "secret" 3600 ⟨7, "demo@puvaan.dev"⟩ 1000).1,
    by decide,
    (issued_tokens_never_verify "secret" 3600 ⟨7, "demo@puvaan.dev"⟩ 1000).2 (by decide)⟩

/-- C2 counterexample: issuing a token and immediately verifying it does
not yield a bearer-tagged Identity — it yields no Identity at all, failing
with the allowlist parse error; and the Identity construction on the
success path of the pipeline (reached here by skipping the nil-allowlist
parse) tags the method "jwt", which is not "bearer". -/
theorem roundtrip_method_never_bearer :
    VerifyToken
        (.parsed (generateToken (NewHandler "secret" 3600) ⟨7, "demo@puvaan.dev"⟩ 1000).1)
        "secret" 1000 = .error .algNotAllowed ∧
    verifyParsedToken (generateToken (NewHandler "secret" 3600) ⟨7, "demo@puvaan.dev"⟩ 1000).1
        "secret" 1000 = .ok ⟨7, "demo@puvaan.dev", "jwt"⟩ ∧
    ("jwt" : String) ≠ "bearer" := by
  decide

/-- C2 (amended): VerifyToken accepts no token string at all — every
verification fails at the parse step, because auth.go passes a nil
go-jose v4 signature-algorithm allowlist — so the claim's "accepted
implies tagged bearer" holds only vacuously, and the issue-then-verify
round trip yields an error rather than a bearer-tagged Identity; moreover
the Identity constructed on the success path of the post-parse pipeline
(unreachable through VerifyToken as written) carries the method tag
"jwt", not "bearer". -/
theorem verifyToken_accepts_nothing_tags_jwt :
    (∀ (tok : TokenWire) (secret : String) (now : Int),
      verifyFailed (VerifyToken tok secret now) = true) ∧
    (∀ (t : SignedToken) (secret : String) (now : Int) (identity : AuthIdentity),
      verifyParsedToken t secret now = .ok identity → identity.method = "jwt") := by
  constructor
  · intro tok secret now
    exact verifyToken_rejects_all tok secret now
  · intro t secret now identity h
    simp only [verifyParsedToken] at h
    split at h
    · split at h
      · cases h
      · split at h
        · cases h
        · injection h with h'
          rw [← h']
    · cases h

theorem verifyToken_accepts_nothing_tags_jwt_witness :
    verifyFailed (VerifyToken
        (.parsed ⟨"HS256", ⟨.uuid 9, "other@puvaan.dev", "api-gateway", 900, 900, 2000⟩,
          macSign ⟨.uuid 9, "other@puvaan.dev", "api-gateway", 900, 900, 2000⟩ "secret"⟩)
        "secret" 1000) = true ∧
    verifyParsedToken
        ⟨"HS256", ⟨.uuid 9, "other@puvaan.dev", "api-gateway", 900, 900, 2000⟩,
          macSign ⟨.uuid 9, "other@puvaan.dev", "api-gateway", 900, 900, 2000⟩ "secret"⟩
        "secret" 1000 = .ok ⟨9, "other@puvaan.dev", "jwt"⟩ ∧
    (AuthIdentity.mk 9 "other@puvaan.dev" "jwt").method = "jwt" :=
  ⟨verifyToken_accepts_nothing_tags_jwt.1
      (.parsed ⟨"HS256", ⟨.uuid 9, "other@puvaan.dev", "api-gateway", 900, 900, 2000⟩,
        macSign ⟨.uuid 9, "other@puvaan.dev", "api-gateway", 900, 900, 2000⟩ "secret"⟩)
      "secret" 1000,
    by decide,
    verifyToken_accepts_nothing_tags_jwt.2
      ⟨"HS256", ⟨.uuid 9, "other@puvaan.dev", "api-gateway", 900, 900, 2000⟩,
        macSign ⟨.uuid 9, "other@puvaan.dev", "api-gateway", 900, 900, 2000⟩ "secret"⟩
      "secret" 1000 ⟨9, "other@puvaan.dev", "jwt"⟩ (by decide)⟩

/-- C3: for every structurally well-formed token whose embedded expiry is
not after the current time, VerifyToken fails, whatever its signature; and
for every token whose embedded not-before is after the current time,
VerifyToken fails. This holds a fortiori: VerifyToken rejects every token
at the parse step (the nil algorithm allowlist passed by auth.go), so in
particular every expired and every not-yet-valid token is rejected. -/
theorem token_temporal_rejection (t : SignedToken) (secret : String)
    (now : Int) :
    (t.claims.exp ≤ now →
      verifyFailed (VerifyToken (.parsed t) secret now) = true) ∧
    (now < t.claims.nbf →
      verifyFailed (VerifyToken (.parsed t) secret now) = true) :=
  ⟨fun _ => verifyToken_rejects_all (.parsed t) secret now,
    fun _ => verifyToken_rejects_all (.parsed t) secret now⟩

theorem token_temporal_rejection_witness :
    ((1000 : Int) ≤ 2000) ∧
    verifyFailed (VerifyToken
        (.parsed ⟨"HS256", ⟨.uuid 7, "demo@puvaan.dev", "api-gateway", 900, 900, 1000⟩,
          macSign ⟨.uuid 7, "demo@puvaan.dev", "api-gateway", 900, 900, 1000⟩ "secret"⟩)
        "secret" 2000) = true ∧
    ((2000 : Int) < 3000) ∧
    verifyFailed (VerifyToken
        (.parsed ⟨"HS256", ⟨.uuid 7, "demo@puvaan.dev", "api-gateway", 2900, 3000, 4000⟩,
          macSign ⟨.uuid 7, "demo@puvaan.dev", "api-gateway", 2900, 3000, 4000⟩ "secret"⟩)
        "secret" 2000) = true :=
  ⟨by decide,
    (token_temporal_rejection
      ⟨"HS256", ⟨.uuid 7, "demo@puvaan.dev", "api-gateway", 900, 900, 1000⟩,
        macSign ⟨.uuid 7, "demo@puvaan.dev", "api-gateway", 900, 900, 1000⟩ "secret"⟩
      "secret" 2000).1 (by decide),
    by decide,
    (token_temporal_rejection
      ⟨"HS256", ⟨.uuid 7, "demo@puvaan.dev", "api-gateway", 2900, 3000, 4000⟩,
        macSign ⟨.uuid 7, "demo@puvaan.dev", "api-gateway", 2900, 3000, 4000⟩ "secret"⟩
      "secret" 2000).2 (by decide)⟩

/-- C7: AuthenticateUser fails with the single error InvalidCredentials
both when no user row carries the requested email and when the first row
carrying it fails the bcrypt comparison (the two rejections are the same
error value, hence indistinguishable to the caller); when the email is
found and the password verifies, it returns that user's id and email. -/
theorem authenticateUser_contract (bcryptOK : String → String → Bool)
    (s : StoreState) :
    (∀ (email password : String), s.available = true →
      (∀ u ∈ s.users, u.email ≠ email) →
      AuthenticateUser bcryptOK s email password = .error .invalidCredentials) ∧
    (∀ (email password : String) (u : UserRow), s.available = true →
      s.users.find? (fun v => v.email == email) = some u →
      bcryptOK u.passwordHash password = false →
      AuthenticateUser bcryptOK s email password = .error .invalidCredentials) ∧
    (∀ (email password : String) (u : UserRow), s.available = true →
      s.users.find? (fun v => v.email == email) = some u →
      bcryptOK u.passwordHash password = true →
      AuthenticateUser bcryptOK s email password = .ok ⟨u.id, u.email⟩) := by
  refine ⟨?_, ?_, ?_⟩
  · intro email password hav hnone
    have hf : s.users.find? (fun v => v.email == email) = none := by
      rw [List.find?_eq_none]
      intro u hu
      simpa using hnone u hu
    simp [AuthenticateUser, hav, hf]
  · intro email password u hav hf hb
    simp [AuthenticateUser, hav, hf, hb]
  · intro email password u hav hf hb
    simp [AuthenticateUser, hav, hf, hb]

theorem authenticateUser_contract_witness :
    AuthenticateUser (fun h p => h == "bch-" ++ p)
        ⟨[⟨7, "demo@puvaan.dev", "bch-pw1"⟩], [], true⟩
        "nobody@puvaan.dev" "pw1" = .error .invalidCredentials ∧
    AuthenticateUser (fun h p => h == "bch-" ++ p)
        ⟨[⟨7, "demo@puvaan.dev", "bch-pw1"⟩], [], true⟩
        "demo@puvaan.dev" "wrong" = .error .invalidCredentials ∧
    AuthenticateUser (fun h p => h == "bch-" ++ p)
        ⟨[⟨7, "demo@puvaan.dev", "bch-pw1"⟩], [], true⟩
        "demo@puvaan.dev" "pw1" = .ok ⟨7, "demo@puvaan.dev"⟩ :=
  ⟨(authenticateUser_contract (fun h p => h == "bch-" ++ p)
        ⟨[⟨7, "demo@puvaan.dev", "bch-pw1"⟩], [], true⟩).1
      "nobody@puvaan.dev" "pw1" (by decide) (by decide),
    (authenticateUser_contract (fun h p => h == "bch-" ++ p)
        ⟨[⟨7, "demo@puvaan.dev", "bch-pw1"⟩], [], true⟩).2.1
      "demo@puvaan.dev" "wrong" ⟨7, "demo@puvaan.dev", "bch-pw1"⟩
      (by decide) (by decide) (by decide),
    (authenticateUser_contract (fun h p => h == "bch-" ++ p)
        ⟨[⟨7, "demo@puvaan.dev", "bch-pw1"⟩], [], true⟩).2.2
      "demo@puvaan.dev" "pw1" ⟨7, "demo@puvaan.dev", "bch-pw1"⟩
      (by decide) (by decide) (by decide)⟩

/-- C8: LookupAPIKey fails with the single error APIKeyNotFound both when
no api_keys row carries the exact key string and when every row carrying
it is revoked (the same error value, indistinguishable to the caller); for
a non-revoked key present in the store (keys are unique per schema) whose
owner row exists, it returns the owning user's id and email; and since
every lookup re-reads the state, revoking a key makes the very next lookup
of that key fail. -/
theorem lookupAPIKey_contract (s : StoreState) (key : String) :
    (s.available = true →
      (∀ r ∈ s.apiKeys, r.key = key → r.revoked = true) →
      LookupAPIKey s key = .error .apiKeyNotFound) ∧
    (∀ (rec : APIKeyRow) (u : UserRow), s.available = true →
      rec ∈ s.apiKeys → rec.key = key → rec.revoked = false →
      (∀ r ∈ s.apiKeys, r.key = key → r = rec) →
      s.users.find? (fun v => v.id == rec.userID) = some u →
      LookupAPIKey s key = .ok ⟨rec.userID, u.email⟩) ∧
    (∀ identity : StoreIdentity, LookupAPIKey s key = .ok identity →
      LookupAPIKey (revokeKey s key) key = .error .apiKeyNotFound) := by
  refine ⟨?_, ?_, ?_⟩
  · intro hav hall
    have hfil : s.apiKeys.filter (fun r => r.key == key && r.revoked == false) = [] := by
      rw [List.filter_eq_nil_iff]
      intro r hr
      by_cases hk : r.key = key
      · simp [hk, hall r hr hk]
      · simp [hk]
    have hempty : apiKeyJoinRows s key = [] := by
      unfold apiKeyJoinRows
      rw [hfil]
      rfl
    simp [LookupAPIKey, hav, hempty]
  · intro rec u hav hrec hkey hrev huniq hfind
    have hp : (fun r => r.key == key && r.revoked == false) rec = true := by
      simp [hkey, hrev]
    have hmem : rec ∈ s.apiKeys.filter (fun r => r.key == key && r.revoked == false) :=
      List.mem_filter.mpr ⟨hrec, hp⟩
    have hjoin : (apiKeyJoinRows s key).head? = some ⟨rec.userID, u.email⟩ := by
      unfold apiKeyJoinRows
      cases hfl : s.apiKeys.filter (fun r => r.key == key && r.revoked == false) with
      | nil =>
        rw [hfl] at hmem
        cases hmem
      | cons x xs =>
        have hx : x ∈ s.apiKeys.filter (fun r => r.key == key && r.revoked == false) := by
          rw [hfl]
          exact List.mem_cons_self x xs
        have hx' := List.mem_filter.mp hx
        have hxk : x.key = key := by
          have := hx'.2
          simp only [Bool.and_eq_true, beq_iff_eq] at this
          exact this.1
        have hxrec : x = rec := huniq x hx'.1 hxk
        subst hxrec
        rw [List.filterMap_cons]
        simp [hfind]
    simp [LookupAPIKey, hav, hjoin]
  · intro identity h
    have hav : s.available = true := by
      by_contra hc
      have hfalse : s.available = false := by
        cases hb : s.available
        · rfl
        · exact absurd hb hc
      simp [LookupAPIKey, hfalse] at h
    have hfil : (revokeKey s key).apiKeys.filter
        (fun r => r.key == key && r.revoked == false) = [] := by
      show (s.apiKeys.map fun r =>
          if r.key == key then { r with revoked := true } else r).filter
          (fun r => r.key == key && r.revoked == false) = []
      rw [List.filter_map]
      rw [List.filter_eq_nil_iff.mpr]
      · rfl
      · intro r hr
        by_cases hk : r.key = key
        · simp [Function.comp, hk]
        · simp [Function.comp, hk]
    have hempty : apiKeyJoinRows (revokeKey s key) key = [] := by
      unfold apiKeyJoinRows
      rw [hfil]
      rfl
    have havr : (revokeKey s key).available = true := hav
    simp [LookupAPIKey, havr, hempty]

theorem lookupAPIKey_contract_witness :
    LookupAPIKey ⟨[⟨7, "demo@puvaan.dev", "h"⟩],
        [⟨7, "demo-key-123", true⟩, ⟨9, "other-key", false⟩], true⟩
      "demo-key-123" = .error .apiKeyNotFound ∧
    LookupAPIKey ⟨[⟨7, "demo@puvaan.dev", "h"⟩],
        [⟨7, "demo-key-123", false⟩], true⟩
      "demo-key-123" = .ok ⟨7, "demo@puvaan.dev"⟩ ∧
    LookupAPIKey
      (revokeKey ⟨[⟨7, "demo@puvaan.dev", "h"⟩], [⟨7, "demo-key-123", false⟩], true⟩
        "demo-key-123")
      "demo-key-123" = .error .apiKeyNotFound :=
  ⟨(lookupAPIKey_contract ⟨[⟨7, "demo@puvaan.dev", "h"⟩],
        [⟨7, "demo-key-123", true⟩, ⟨9, "other-key", false⟩], true⟩
      "demo-key-123").1 (by decide) (by decide),
    (lookupAPIKey_contract ⟨[⟨7, "demo@puvaan.dev", "h"⟩],
        [⟨7, "demo-key-123", false⟩], true⟩ "demo-key-123").2.1
      ⟨7, "demo-key-123", false⟩ ⟨7, "demo@puvaan.dev", "h"⟩
      (by decide) (by decide) (by decide) (by decide) (by decide) (by decide),
    (lookupAPIKey_contract ⟨[⟨7, "demo@puvaan.dev", "h"⟩],
        [⟨7, "demo-key-123", false⟩], true⟩ "demo-key-123").2.2
      ⟨7, "demo@puvaan.dev"⟩ (by decide)⟩

end Gateway
